import Mathlib

/-!
Verification of the agent-browser CLI (session-scoped daemon lifecycle and
command transport layer) against its natural-language specification.

The Rust sources under `cli/src/` are shallowly embedded as executable Lean
definitions:

* `cli/src/color.rs`   → the `Color` section (the process-global cached
  "is color enabled" flag is threaded as an explicit `Option String`
  environment value, per the design note of spec §9);
* `cli/src/flags.rs`   → the `Flags` section (`parse_flags`, `clean_args`;
  the environment is an explicit `Env` record);
* `cli/src/main.rs`    → the `Registry` section (the `session list`
  enumeration of `run_session`, modelled over a snapshot of the shared
  directory), the `parse_proxy` function, and the ignored-configuration
  warning block of `main`;
* `cli/src/commands.rs` → the `Commands` section (`gen_id`, `parse_command`
  and its sub-parsers, over an explicit JSON value type; the invocation
  clock is an explicit microsecond count, and the external JSON
  deserializer used for `--headers` is an explicit oracle parameter);
* the command transport (`ensure_daemon` / `send_command`) lives in
  `cli/src/connection.rs`, which is not part of the source snapshot; its
  response-identifier check is modelled from the spec (§4.3) where needed.

Filenames and file contents manipulated by the registry are modelled as
`List Char`; machine integers are `Nat`/`Int` with explicit range checks
mirroring Rust's `str::parse` for the relevant integer types.
-/

namespace AgentBrowser

/-! ## Color (`cli/src/color.rs`)

`is_enabled` caches `env::var("NO_COLOR").is_err()`: color is enabled
exactly when the `NO_COLOR` environment variable is unset.  Following the
spec's design note (§9), the cached flag is modelled as an explicit value
computed once from the environment (`noColor : Option String`, the value of
the `NO_COLOR` variable if set) and threaded through. -/

def is_enabled (noColor : Option String) : Bool :=
  noColor.isNone

/-- `color.rs` `red`: wrap in `ESC[31m` / `ESC[0m` when enabled. -/
def red (noColor : Option String) (text : String) : String :=
  if is_enabled noColor then "\x1b[31m" ++ text ++ "\x1b[0m" else text

/-- `color.rs` `green`: wrap in `ESC[32m` / `ESC[0m` when enabled. -/
def green (noColor : Option String) (text : String) : String :=
  if is_enabled noColor then "\x1b[32m" ++ text ++ "\x1b[0m" else text

/-- `color.rs` `yellow`: wrap in `ESC[33m` / `ESC[0m` when enabled. -/
def yellow (noColor : Option String) (text : String) : String :=
  if is_enabled noColor then "\x1b[33m" ++ text ++ "\x1b[0m" else text

/-- `color.rs` `cyan`: wrap in `ESC[36m` / `ESC[0m` when enabled. -/
def cyan (noColor : Option String) (text : String) : String :=
  if is_enabled noColor then "\x1b[36m" ++ text ++ "\x1b[0m" else text

/-- `color.rs` `bold`: wrap in `ESC[1m` / `ESC[0m` when enabled. -/
def bold (noColor : Option String) (text : String) : String :=
  if is_enabled noColor then "\x1b[1m" ++ text ++ "\x1b[0m" else text

/-- `color.rs` `dim`: wrap in `ESC[2m` / `ESC[0m` when enabled. -/
def dim (noColor : Option String) (text : String) : String :=
  if is_enabled noColor then "\x1b[2m" ++ text ++ "\x1b[0m" else text

/-! ## Flags (`cli/src/flags.rs`)

The `Flags` struct.  `backend` is part of the struct as used by `main.rs`
(and by the unit tests of `commands.rs`); the `flags.rs` snapshot neither
initialises it from the environment nor parses a `--backend` argument, so
the embedded `parse_flags` leaves it `none`. -/

structure Flags where
  json : Bool
  full : Bool
  headed : Bool
  debug : Bool
  session : String
  headers : Option String
  executable_path : Option String
  cdp : Option String
  extensions : List String
  proxy : Option String
  profile : Option String
  ignore_https_errors : Bool
  session_name : Option String
  state : Option String
  persist : Bool
  args : Option String
  user_agent : Option String
  stealth : Bool
  backend : Option String
deriving Repr, DecidableEq

/-- The environment variables read by `parse_flags` (`env::var` results:
`some v` when the variable is set to `v`, `none` when unset). -/
structure Env where
  extensions : Option String
  headed : Option String
  session : Option String
  executable_path : Option String
  profile : Option String
  session_name : Option String
  state : Option String
  persist : Option String
  args : Option String
  user_agent : Option String
  stealth : Option String
deriving Repr, DecidableEq

/-- The all-unset environment. -/
def Env.empty : Env :=
  ⟨none, none, none, none, none, none, none, none, none, none, none⟩

/-- `flags.rs` lines 25–28: `AGENT_BROWSER_EXTENSIONS` split on commas,
each part trimmed, empty parts dropped. -/
def extensionsFromEnv (v : Option String) : List String :=
  match v with
  | none => []
  | some s => ((s.splitOn ",").map (fun p => p.trim)).filter (fun p => !p.isEmpty)

/-- `flags.rs` lines 30–49: the initial `Flags` value, before the argument
loop, with every default drawn from the environment. -/
def initFlags (env : Env) : Flags where
  json := false
  full := false
  headed := (env.headed.map (fun v => v == "1" || v == "true")).getD false
  debug := false
  session := env.session.getD "default"
  headers := none
  executable_path := env.executable_path
  cdp := none
  extensions := extensionsFromEnv env.extensions
  proxy := none
  profile := env.profile
  ignore_https_errors := false
  session_name := env.session_name
  state := env.state
  persist := (env.persist.map (fun v => v == "1")).getD false
  args := env.args
  user_agent := env.user_agent
  stealth := (env.stealth.map (fun v => v == "1" || v == "true")).getD false
  backend := none

/-- `flags.rs` lines 51–130: the argument loop.  A value-taking flag with a
following argument consumes it (the source bumps `i` once more); a
value-taking flag in last position changes nothing. -/
def parseFlagsLoop : Flags → List String → Flags
  | f, [] => f
  | f, a :: rest =>
    match a with
    | "--json" => parseFlagsLoop { f with json := true } rest
    | "--full" => parseFlagsLoop { f with full := true } rest
    | "-f" => parseFlagsLoop { f with full := true } rest
    | "--headed" => parseFlagsLoop { f with headed := true } rest
    | "--debug" => parseFlagsLoop { f with debug := true } rest
    | "--session" =>
      match rest with
      | v :: rest2 => parseFlagsLoop { f with session := v } rest2
      | [] => f
    | "--headers" =>
      match rest with
      | v :: rest2 => parseFlagsLoop { f with headers := some v } rest2
      | [] => f
    | "--executable-path" =>
      match rest with
      | v :: rest2 => parseFlagsLoop { f with executable_path := some v } rest2
      | [] => f
    | "--extension" =>
      match rest with
      | v :: rest2 =>
        parseFlagsLoop { f with extensions := f.extensions ++ [v] } rest2
      | [] => f
    | "--cdp" =>
      match rest with
      | v :: rest2 => parseFlagsLoop { f with cdp := some v } rest2
      | [] => f
    | "--proxy" =>
      match rest with
      | v :: rest2 => parseFlagsLoop { f with proxy := some v } rest2
      | [] => f
    | "--profile" =>
      match rest with
      | v :: rest2 => parseFlagsLoop { f with profile := some v } rest2
      | [] => f
    | "--ignore-https-errors" =>
      parseFlagsLoop { f with ignore_https_errors := true } rest
    | "--session-name" =>
      match rest with
      | v :: rest2 => parseFlagsLoop { f with session_name := some v } rest2
      | [] => f
    | "--state" =>
      match rest with
      | v :: rest2 => parseFlagsLoop { f with state := some v } rest2
      | [] => f
    | "--persist" => parseFlagsLoop { f with persist := true } rest
    | "-p" => parseFlagsLoop { f with persist := true } rest
    | "--args" =>
      match rest with
      | v :: rest2 => parseFlagsLoop { f with args := some v } rest2
      | [] => f
    | "--user-agent" =>
      match rest with
      | v :: rest2 => parseFlagsLoop { f with user_agent := some v } rest2
      | [] => f
    | "--stealth" => parseFlagsLoop { f with stealth := true } rest
    | _ => parseFlagsLoop f rest

/-- `flags.rs` `parse_flags`: environment defaults, then the argument loop. -/
def parse_flags (env : Env) (args : List String) : Flags :=
  parseFlagsLoop (initFlags env) args

/-- `flags.rs` line 139: `GLOBAL_FLAGS`. -/
def GLOBAL_FLAGS : List String :=
  ["--json", "--full", "--headed", "--debug", "--ignore-https-errors",
   "--persist", "--stealth"]

/-- `flags.rs` line 141: `GLOBAL_FLAGS_WITH_VALUE`. -/
def GLOBAL_FLAGS_WITH_VALUE : List String :=
  ["--session", "--headers", "--executable-path", "--cdp", "--extension",
   "--proxy", "--profile", "--session-name", "--state", "--args",
   "--user-agent"]

/-- `flags.rs` lines 134–158: the `clean_args` loop, with its `skip_next`
state made explicit. -/
def cleanArgsLoop : Bool → List String → List String
  | _, [] => []
  | true, _ :: rest => cleanArgsLoop false rest
  | false, a :: rest =>
    if GLOBAL_FLAGS_WITH_VALUE.contains a then
      cleanArgsLoop true rest
    else if GLOBAL_FLAGS.contains a || a = "-f" || a = "-p" then
      cleanArgsLoop false rest
    else
      a :: cleanArgsLoop false rest

/-- `flags.rs` `clean_args`. -/
def clean_args (args : List String) : List String :=
  cleanArgsLoop false args

/-- A restatement of claim C9's description of `clean_args`, written from the
claim's words (for comparison with the embedded `clean_args`): walk the
argument list; a global flag that takes a value is removed together with the
immediately following argument; a valueless global flag is removed alone;
every other argument is kept unchanged. -/
def cleanArgsSpec : List String → List String
  | [] => []
  | [a] =>
    if GLOBAL_FLAGS_WITH_VALUE.contains a then []
    else if GLOBAL_FLAGS.contains a || a = "-f" || a = "-p" then []
    else [a]
  | a :: b :: rest =>
    if GLOBAL_FLAGS_WITH_VALUE.contains a then cleanArgsSpec rest
    else if GLOBAL_FLAGS.contains a || a = "-f" || a = "-p" then
      cleanArgsSpec (b :: rest)
    else a :: cleanArgsSpec (b :: rest)

/-- Any of the tokens `clean_args` strips (either flag table, or the short
forms `-f` / `-p`). -/
def isGlobalFlagToken (a : String) : Bool :=
  GLOBAL_FLAGS_WITH_VALUE.contains a || GLOBAL_FLAGS.contains a ||
    a == "-f" || a == "-p"

/-! ## Ignored-configuration warnings (`cli/src/main.rs` lines 201–229)

After `ensure_daemon` returns, `main` warns when startup-only configuration
flags were supplied but the daemon was already running.  Each `eprintln!` of
the block is modelled by the startup-configuration field its message names
(the warning text itself carries no further structure relevant here). -/

inductive ConfigField where
  | executablePath
  | extensions
  | profile
  | ignoreHTTPSErrors
  | stateFile
  | persist
  | stealth
  | backend
deriving Repr, DecidableEq

/-- The condition of `main.rs` line 202: some non-default startup
configuration field was supplied. -/
def anyStartupConfigSupplied (f : Flags) : Bool :=
  f.executable_path.isSome || !f.extensions.isEmpty || f.profile.isSome ||
    f.ignore_https_errors || f.state.isSome || f.persist || f.stealth ||
    f.backend.isSome

/-- `main.rs` lines 201–229: the warnings emitted (in source order) when the
daemon was already running.  The inner `if !flags.json` guard of line 203 is
part of the source: in JSON mode the block prints nothing. -/
def config_warnings (already_running : Bool) (f : Flags) : List ConfigField :=
  if already_running && anyStartupConfigSupplied f then
    if !f.json then
      (if f.executable_path.isSome then [ConfigField.executablePath] else []) ++
      (if !f.extensions.isEmpty then [ConfigField.extensions] else []) ++
      (if f.profile.isSome then [ConfigField.profile] else []) ++
      (if f.ignore_https_errors then [ConfigField.ignoreHTTPSErrors] else []) ++
      (if f.state.isSome then [ConfigField.stateFile] else []) ++
      (if f.persist then [ConfigField.persist] else []) ++
      (if f.stealth then [ConfigField.stealth] else []) ++
      (if f.backend.isSome then [ConfigField.backend] else [])
    else []
  else []

/-! ## Session registry (`cli/src/main.rs`, `run_session` lines 61–115)

Filenames and file contents are modelled as `List Char` (`Str`).  The shared
temporary directory is a snapshot: a list of entries, each a filename plus
the result of `fs::read_to_string` on it at enumeration time (`none` when
the read fails, e.g. the file disappeared mid-read).  The platform process
probe (`libc::kill(pid, 0)` / `OpenProcess`) is an explicit predicate on
process ids, following the spec's `isProcessAlive(pid) -> bool` capability
interface (§9). -/

abbrev Str := List Char

/-- The characters of a string literal. -/
def strOf (s : String) : Str := s.data

/-- Rust `str::starts_with` for a plain pattern. -/
def startsWith (s pat : Str) : Bool := s.take pat.length = pat

/-- Rust `str::ends_with` for a plain pattern. -/
def endsWith (s pat : Str) : Bool :=
  pat.length ≤ s.length && s.drop (s.length - pat.length) = pat

/-- Rust `str::strip_prefix`-style removal of a leading pattern. -/
def stripPre (pat s : Str) : Option Str :=
  if startsWith s pat then some (s.drop pat.length) else none

/-- Rust `str::strip_suffix`-style removal of a trailing pattern. -/
def stripSuf (pat s : Str) : Option Str :=
  if endsWith s pat then some (s.take (s.length - pat.length)) else none

/-- Rust `str::trim`: whitespace removed from both ends (`Char.isWhitespace`
stands in for Rust's Unicode `char::is_whitespace`). -/
def trimL (s : Str) : Str :=
  ((s.dropWhile Char.isWhitespace).reverse.dropWhile Char.isWhitespace).reverse

/-- Rust `str::parse` for unsigned integer types before the range check: an
optional leading `+`, then one or more ASCII digits. -/
def parseUNat (s : Str) : Option Nat :=
  let t := match s with
    | '+' :: r => r
    | _ => s
  if t ≠ [] ∧ t.all Char.isDigit then
    some (t.foldl (fun n c => n * 10 + (c.toNat - 48)) 0)
  else none

/-- Rust `str::parse::<u32>`: unsigned syntax plus the 32-bit range check. -/
def parseU32 (s : Str) : Option Nat :=
  (parseUNat s).bind (fun n => if n < 2 ^ 32 then some n else none)

/-- The fixed marker-filename prefix of the session-marker convention
(`main.rs` line 69). -/
def markerPre : Str := strOf "agent-browser-"

/-- The marker-filename extension of the session-marker convention
(`main.rs` line 69). -/
def markerSuf : Str := strOf ".pid"

/-- `main.rs` lines 69–74: does a directory entry name match the
session-marker convention, and if so which session name does it carry?
(`strip_prefix(..).and_then(strip_suffix(..)).unwrap_or("")`, then the
non-emptiness check of line 74.) -/
def sessionNameOf (name : Str) : Option Str :=
  if startsWith name markerPre && endsWith name markerSuf then
    let sn := ((stripPre markerPre name).bind (stripSuf markerSuf)).getD []
    if sn ≠ [] then some sn else none
  else none

/-- A snapshot of one shared-directory entry: its filename and the result of
reading it during enumeration (`none`: unreadable / disappeared mid-read). -/
structure DirEntry where
  name : Str
  content : Option Str
deriving Repr, DecidableEq

/-- The contribution of one directory entry to the session listing
(`main.rs` lines 66–98): a session name is pushed exactly when the filename
matches the marker convention with a non-empty name, the file read succeeds,
the stored pid parses as a `u32`, and the process probe reports it alive. -/
def sessionEntry (isAlivePid : Nat → Bool) (e : DirEntry) : Option Str :=
  match sessionNameOf e.name with
  | none => none
  | some sn =>
    match e.content with
    | none => none
    | some c =>
      match parseU32 (trimL c) with
      | none => none
      | some pid => if isAlivePid pid then some sn else none

/-- `main.rs` lines 61–99 (`run_session`, subcommand `list`): scan the
shared directory, pushing the session names of the entries whose probe
succeeds; everything else contributes nothing. -/
def listSessions (isAlivePid : Nat → Bool) (entries : List DirEntry) :
    List Str :=
  entries.filterMap (sessionEntry isAlivePid)

/-- Modelled from the spec: the derivation of a session's marker filename is
performed by the daemon supervisor in `cli/src/connection.rs`, which is not
part of the source snapshot.  Spec §6: marker identifiers are "derived as
`<fixed-prefix>-<session-name>` within a shared well-known temporary
directory"; the fixed prefix and the `.pid` extension are those of the
session-marker naming convention that the enumeration in `main.rs`
lines 69–74 matches against. -/
def markerFileName (session : Str) : Str :=
  markerPre ++ session ++ markerSuf

/-! ## `parse_proxy` (`cli/src/main.rs` lines 27–55) -/

/-- The result of `parse_proxy`: the `json!` object's `server`, `username`
and `password` fields (absent fields are `none`). -/
structure Proxy where
  server : Str
  username : Option Str
  password : Option Str
deriving Repr, DecidableEq

/-- Rust `str::find` for a plain pattern: index of the first occurrence. -/
def findSub? (pat : Str) : Str → Option Nat
  | [] => if pat = [] then some 0 else none
  | c :: rest =>
    if startsWith (c :: rest) pat then some 0
    else (findSub? pat rest).map (· + 1)

/-- Rust `str::rfind` for a single character: index of its last occurrence. -/
def rfindChar? (ch : Char) : Str → Option Nat
  | [] => none
  | c :: rest =>
    match rfindChar? ch rest with
    | some i => some (i + 1)
    | none => if c = ch then some 0 else none

/-- Rust `str::find` for a single character: index of its first occurrence. -/
def findChar? (ch : Char) : Str → Option Nat
  | [] => none
  | c :: rest => if c = ch then some 0 else (findChar? ch rest).map (· + 1)

/-- `main.rs` `parse_proxy`: split `<protocol>://<credentials>@<host>` at
the first `://`, the last `@` of the remainder, and the first `:` of the
credentials. -/
def parse_proxy (s : Str) : Proxy :=
  match findSub? (strOf "://") s with
  | none => ⟨s, none, none⟩
  | some protocolEnd =>
    let protocol := s.take (protocolEnd + 3)
    let rest := s.drop (protocolEnd + 3)
    match rfindChar? '@' rest with
    | none => ⟨s, none, none⟩
    | some atPos =>
      let creds := rest.take atPos
      let serverPart := rest.drop (atPos + 1)
      let server := protocol ++ serverPart
      match findChar? ':' creds with
      | none => ⟨server, some creds, some []⟩
      | some colonPos =>
        ⟨server, some (creds.take colonPos), some (creds.drop (colonPos + 1))⟩

/-! ## Command transport (`cli/src/connection.rs`, absent from the snapshot) -/

/-- The deserialized wire Response (spec §6): required `success`, optional
identifier, optional error string; the action-dependent `data` payload is
opaque to this layer and omitted. -/
structure Response where
  id : Option String
  success : Bool
  error : Option String
deriving Repr, DecidableEq

/-- The transport-layer error taxonomy of spec §7 relevant to
`send_command`. -/
inductive TransportError where
  | transportUnreachable
  | protocolError
deriving Repr, DecidableEq

/-- Modelled from the spec: `send_command` lives in `cli/src/connection.rs`,
which is not part of the source snapshot.  Spec §4.3 step 5: "If the
identifier field is present, verify it matches the Command's identifier; a
mismatch is a ProtocolError".  The connect/framing steps are abstracted
away: `wire` is the one framed Response read back for the Command with
identifier `cmdId`. -/
def check_response_id (cmdId : String) (wire : Response) :
    Except TransportError Response :=
  match wire.id with
  | some rid => if rid = cmdId then .ok wire else .error .protocolError
  | none => .ok wire

/-- Modelled from the spec: the response-acceptance step of `send_command`
(§4.3 steps 4–5), given the Response the daemon framed back. -/
def send_command (cmdId : String) (wire : Response) :
    Except TransportError Response :=
  check_response_id cmdId wire

/-! ## Commands (`cli/src/commands.rs`)

`serde_json::Value` is embedded as `Json`.  Floating-point JSON numbers
(produced only by `set geo`) are kept as their source literal text — their
numeric value plays no role in any claim, and `isF64Lit` mirrors the grammar
of Rust's `f64::from_str`.  The invocation clock (`SystemTime::now`, for
`gen_id`) is an explicit microseconds-since-epoch count, and the external
JSON deserializer (`serde_json::from_str`, used for `--headers` and
`set headers`) is an explicit oracle argument.  Error-message texts are
reproduced with ASCII quotation marks omitted. -/

inductive Json where
  | null
  | bool (b : Bool)
  | num (n : Int)
  | floatLit (s : String)
  | str (s : String)
  | arr (elems : List Json)
  | obj (fields : List (String × Json))

/-- `serde_json` object field lookup. -/
def getField (j : Json) (k : String) : Option Json :=
  match j with
  | .obj fields => (fields.find? (fun kv => kv.1 == k)).map (fun kv => kv.2)
  | _ => none

/-- Replace the value of key `k` in an association list, or append it. -/
def setField : List (String × Json) → String → Json → List (String × Json)
  | [], k, v => [(k, v)]
  | (k0, v0) :: rest, k, v =>
    if k0 = k then (k0, v) :: rest else (k0, v0) :: setField rest k v

/-- `serde_json` object insertion (`cmd["k"] = v` / `as_object_mut().insert`):
replace the field if present, add it otherwise.  (Applied only to objects in
the source; on non-objects this is the identity.) -/
def jsonSet (j : Json) (k : String) (v : Json) : Json :=
  match j with
  | .obj fields => .obj (setField fields k v)
  | other => other

/-- Is a JSON value a scalar (no nesting)? -/
def isScalar : Json → Bool
  | .null => true
  | .bool _ => true
  | .num _ => true
  | .floatLit _ => true
  | .str _ => true
  | .arr _ => false
  | .obj _ => false

/-- Is a JSON value a flat object: an object all of whose field values are
scalars? -/
def isFlat : Json → Bool
  | .obj fields => fields.all (fun kv => isScalar kv.2)
  | _ => false

/-- Every `Ok` branch of `parse_command` builds a `json!` literal whose first
two fields are `id` and `action` (both strings), followed by the branch's
action-specific fields in source order. -/
def mkCmd (id action : String) (extra : List (String × Json)) : Json :=
  .obj (("id", Json.str id) :: ("action", Json.str action) :: extra)

/-- The shape every successful `parse_command` result has: a JSON object
whose `id` field is the generated identifier string and whose `action`
field is some string. -/
def goodCmd (id : String) (v : Json) : Prop :=
  (∃ fields, v = Json.obj fields) ∧
  getField v "id" = some (Json.str id) ∧
  ∃ a, getField v "action" = some (Json.str a)

/-- `serde_json` serialization of `Option<&str>`: `null` or a string. -/
def ofOptStr : Option String → Json
  | none => .null
  | some s => .str s

/-- `serde_json` serialization of `Option<i32>`: `null` or a number. -/
def ofOptInt : Option Int → Json
  | none => .null
  | some n => .num n

/-- `commands.rs` `gen_id` (lines 48–57): the letter `r` followed by the
microseconds-since-epoch reduced modulo 1,000,000, in decimal. -/
def gen_id (micros : Nat) : String :=
  "r" ++ Nat.repr (micros % 1000000)

/-- `commands.rs` `ParseError`. -/
inductive ParseError where
  | unknownCommand (command : String)
  | unknownSubcommand (subcommand : String) (validOptions : List String)
  | missingArguments (context : String) (usage : String)
deriving Repr, DecidableEq

/-- One or more ASCII digits, as a number. -/
def parseDigits (t : Str) : Option Nat :=
  if t ≠ [] ∧ t.all Char.isDigit then
    some (t.foldl (fun n c => n * 10 + (c.toNat - 48)) 0)
  else none

/-- Rust `str::parse` for signed integer types before the range check: an
optional sign, then one or more ASCII digits. -/
def parseSigned (s : Str) : Option Int :=
  match s with
  | '-' :: r => (parseDigits r).map (fun n => -(n : Int))
  | '+' :: r => (parseDigits r).map (fun n => (n : Int))
  | _ => (parseDigits s).map (fun n => (n : Int))

/-- Rust `str::parse::<i32>`. -/
def parseI32 (s : String) : Option Int :=
  (parseSigned (strOf s)).bind
    (fun n => if -(2 ^ 31) ≤ n ∧ n < 2 ^ 31 then some n else none)

/-- Rust `str::parse::<u64>`. -/
def parseU64 (s : String) : Option Nat :=
  (parseUNat (strOf s)).bind (fun n => if n < 2 ^ 64 then some n else none)

/-- Rust `str::parse::<u16>`. -/
def parseU16 (s : String) : Option Nat :=
  (parseUNat (strOf s)).bind (fun n => if n < 2 ^ 16 then some n else none)

/-- After the optional exponent marker: an optional sign then 1+ digits. -/
def expDigitsOk (r : Str) : Bool :=
  let r2 := match r with
    | c :: t => if c = '+' ∨ c = '-' then t else c :: t
    | [] => []
  !r2.isEmpty && r2.all Char.isDigit

/-- The optional exponent part of a float literal (empty, or `e`/`E` with an
optionally signed digit run). -/
def expOk : Str → Bool
  | [] => true
  | e :: r => (e = 'e' || e = 'E') && expDigitsOk r

/-- The body of Rust's `f64::from_str` grammar after the optional sign:
`inf`, `infinity`, `nan` (case-insensitive) or a significand
(`Digits . Digits?`, `Digits`, or `. Digits`) with an optional exponent. -/
def f64Body (t : Str) : Bool :=
  let lower := t.map Char.toLower
  if lower = strOf "inf" ∨ lower = strOf "infinity" ∨ lower = strOf "nan" then
    true
  else
    let intPart := t.takeWhile Char.isDigit
    let rest1 := t.dropWhile Char.isDigit
    match rest1 with
    | '.' :: r2 =>
      let frac := r2.takeWhile Char.isDigit
      let rest2 := r2.dropWhile Char.isDigit
      (!intPart.isEmpty || !frac.isEmpty) && expOk rest2
    | _ => !intPart.isEmpty && expOk rest1

/-- Rust `str::parse::<f64>` as a recognizer: the accepted literal is kept
as text (its numeric value is irrelevant to every claim). -/
def parseF64Lit (s : String) : Option String :=
  let t := match strOf s with
    | c :: r => if c = '+' ∨ c = '-' then r else c :: r
    | [] => []
  if f64Body t then some s else none

/-- Rust `slice.join(" ")` over the strings of a sub-slice. -/
def joinSpace (xs : List String) : String :=
  String.intercalate " " xs

/-- `commands.rs` `parse_get` (lines 605–666). -/
def parse_get (rest : List String) (id : String) : Except ParseError Json :=
  match rest[0]? with
  | some "text" =>
    match rest[1]? with
    | none => .error (.missingArguments "get text" "get text <selector>")
    | some sel => .ok (mkCmd id "gettext" [("selector", .str sel)])
  | some "html" =>
    match rest[1]? with
    | none => .error (.missingArguments "get html" "get html <selector>")
    | some sel => .ok (mkCmd id "innerhtml" [("selector", .str sel)])
  | some "value" =>
    match rest[1]? with
    | none => .error (.missingArguments "get value" "get value <selector>")
    | some sel => .ok (mkCmd id "inputvalue" [("selector", .str sel)])
  | some "attr" =>
    match rest[1]? with
    | none => .error (.missingArguments "get attr" "get attr <selector> <attribute>")
    | some sel =>
      match rest[2]? with
      | none => .error (.missingArguments "get attr" "get attr <selector> <attribute>")
      | some attr =>
        .ok (mkCmd id "getattribute" [("selector", .str sel), ("attribute", .str attr)])
  | some "url" => .ok (mkCmd id "url" [])
  | some "title" => .ok (mkCmd id "title" [])
  | some "count" =>
    match rest[1]? with
    | none => .error (.missingArguments "get count" "get count <selector>")
    | some sel => .ok (mkCmd id "count" [("selector", .str sel)])
  | some "box" =>
    match rest[1]? with
    | none => .error (.missingArguments "get box" "get box <selector>")
    | some sel => .ok (mkCmd id "boundingbox" [("selector", .str sel)])
  | some sub =>
    .error (.unknownSubcommand sub
      ["text", "html", "value", "attr", "url", "title", "count", "box"])
  | none =>
    .error (.missingArguments "get"
      "get <text|html|value|attr|url|title|count|box> [args...]")

/-- `commands.rs` `parse_is` (lines 668–702). -/
def parse_is (rest : List String) (id : String) : Except ParseError Json :=
  match rest[0]? with
  | some "visible" =>
    match rest[1]? with
    | none => .error (.missingArguments "is visible" "is visible <selector>")
    | some sel => .ok (mkCmd id "isvisible" [("selector", .str sel)])
  | some "enabled" =>
    match rest[1]? with
    | none => .error (.missingArguments "is enabled" "is enabled <selector>")
    | some sel => .ok (mkCmd id "isenabled" [("selector", .str sel)])
  | some "checked" =>
    match rest[1]? with
    | none => .error (.missingArguments "is checked" "is checked <selector>")
    | some sel => .ok (mkCmd id "ischecked" [("selector", .str sel)])
  | some sub => .error (.unknownSubcommand sub ["visible", "enabled", "checked"])
  | none =>
    .error (.missingArguments "is" "is <visible|enabled|checked> <selector>")

/-- The valid `find` locators (`commands.rs` line 705). -/
def FIND_VALID : List String :=
  ["role", "text", "label", "placeholder", "alt", "title", "testid",
   "first", "last", "nth"]

/-- `commands.rs` `parse_find` (lines 704–779).  The shared
value/subaction/fill extraction of the nine non-`nth` locators is expanded
per locator (the source dispatches twice on the same locator string; its
`unreachable!` arm cannot fire). -/
def parse_find (rest : List String) (id : String) : Except ParseError Json :=
  match rest[0]? with
  | none => .error (.missingArguments "find" "find <locator> <value> [action] [text]")
  | some locator =>
    let nameIdx := rest.findIdx? (fun s => s == "--name")
    let name := nameIdx.bind (fun i => rest[i + 1]?)
    let exact := rest.any (fun s => s == "--exact")
    let subaction := (rest[2]?).getD "click"
    let fillValue :=
      if rest.length > 3 then some (joinSpace (rest.drop 3)) else none
    match locator with
    | "role" =>
      match rest[1]? with
      | none => .error (.missingArguments "find role"
          "find role <role> [action] [--name <name>] [--exact]")
      | some value =>
        .ok (mkCmd id "getbyrole"
          [("role", .str value), ("subaction", .str subaction),
           ("value", ofOptStr fillValue), ("name", ofOptStr name),
           ("exact", .bool exact)])
    | "text" =>
      match rest[1]? with
      | none => .error (.missingArguments "find text"
          "find text <text> [action] [--exact]")
      | some value =>
        .ok (mkCmd id "getbytext"
          [("text", .str value), ("subaction", .str subaction),
           ("exact", .bool exact)])
    | "label" =>
      match rest[1]? with
      | none => .error (.missingArguments "find label"
          "find label <label> [action] [text] [--exact]")
      | some value =>
        .ok (mkCmd id "getbylabel"
          [("label", .str value), ("subaction", .str subaction),
           ("value", ofOptStr fillValue), ("exact", .bool exact)])
    | "placeholder" =>
      match rest[1]? with
      | none => .error (.missingArguments "find placeholder"
          "find placeholder <text> [action] [text] [--exact]")
      | some value =>
        .ok (mkCmd id "getbyplaceholder"
          [("placeholder", .str value), ("subaction", .str subaction),
           ("value", ofOptStr fillValue), ("exact", .bool exact)])
    | "alt" =>
      match rest[1]? with
      | none => .error (.missingArguments "find alt"
          "find alt <text> [action] [--exact]")
      | some value =>
        .ok (mkCmd id "getbyalttext"
          [("text", .str value), ("subaction", .str subaction),
           ("exact", .bool exact)])
    | "title" =>
      match rest[1]? with
      | none => .error (.missingArguments "find title"
          "find title <text> [action] [--exact]")
      | some value =>
        .ok (mkCmd id "getbytitle"
          [("text", .str value), ("subaction", .str subaction),
           ("exact", .bool exact)])
    | "testid" =>
      match rest[1]? with
      | none => .error (.missingArguments "find testid"
          "find testid <id> [action] [text]")
      | some value =>
        .ok (mkCmd id "getbytestid"
          [("testId", .str value), ("subaction", .str subaction),
           ("value", ofOptStr fillValue)])
    | "first" =>
      match rest[1]? with
      | none => .error (.missingArguments "find first"
          "find first <selector> [action] [text]")
      | some value =>
        .ok (mkCmd id "nth"
          [("selector", .str value), ("index", .num 0),
           ("subaction", .str subaction), ("value", ofOptStr fillValue)])
    | "last" =>
      match rest[1]? with
      | none => .error (.missingArguments "find last"
          "find last <selector> [action] [text]")
      | some value =>
        .ok (mkCmd id "nth"
          [("selector", .str value), ("index", .num (-1)),
           ("subaction", .str subaction), ("value", ofOptStr fillValue)])
    | "nth" =>
      match rest[1]? with
      | none => .error (.missingArguments "find nth"
          "find nth <index> <selector> [action] [text]")
      | some idxStr =>
        match parseI32 idxStr with
        | none => .error (.missingArguments "find nth"
            "find nth <index> <selector> [action] [text]")
        | some idx =>
          match rest[2]? with
          | none => .error (.missingArguments "find nth"
              "find nth <index> <selector> [action] [text]")
          | some sel =>
            let sub := (rest[3]?).getD "click"
            let fv :=
              if rest.length > 4 then some (joinSpace (rest.drop 4)) else none
            .ok (mkCmd id "nth"
              [("selector", .str sel), ("index", .num idx),
               ("subaction", .str sub), ("value", ofOptStr fv)])
    | _ => .error (.unknownSubcommand locator FIND_VALID)

/-- `commands.rs` `parse_mouse` (lines 781–824). -/
def parse_mouse (rest : List String) (id : String) : Except ParseError Json :=
  match rest[0]? with
  | some "move" =>
    match rest[1]? with
    | none => .error (.missingArguments "mouse move" "mouse move <x> <y>")
    | some xStr =>
      match rest[2]? with
      | none => .error (.missingArguments "mouse move" "mouse move <x> <y>")
      | some yStr =>
        match parseI32 xStr with
        | none => .error (.missingArguments "mouse move" "mouse move <x> <y>")
        | some x =>
          match parseI32 yStr with
          | none => .error (.missingArguments "mouse move" "mouse move <x> <y>")
          | some y => .ok (mkCmd id "mousemove" [("x", .num x), ("y", .num y)])
  | some "down" =>
    .ok (mkCmd id "mousedown" [("button", .str ((rest[1]?).getD "left"))])
  | some "up" =>
    .ok (mkCmd id "mouseup" [("button", .str ((rest[1]?).getD "left"))])
  | some "wheel" =>
    let dy := (((rest[1]?).bind parseI32)).getD 100
    let dx := (((rest[2]?).bind parseI32)).getD 0
    .ok (mkCmd id "mousewheel" [("deltaX", .num dx), ("deltaY", .num dy)])
  | some sub => .error (.unknownSubcommand sub ["move", "down", "up", "wheel"])
  | none =>
    .error (.missingArguments "mouse" "mouse <move|down|up|wheel> [args...]")

/-- `commands.rs` `parse_set` (lines 826–923). -/
def parse_set (fromStr : String → Option Json) (rest : List String)
    (id : String) : Except ParseError Json :=
  match rest[0]? with
  | some "viewport" =>
    match rest[1]? with
    | none => .error (.missingArguments "set viewport" "set viewport <width> <height>")
    | some wStr =>
      match rest[2]? with
      | none => .error (.missingArguments "set viewport" "set viewport <width> <height>")
      | some hStr =>
        match parseI32 wStr with
        | none => .error (.missingArguments "set viewport" "set viewport <width> <height>")
        | some w =>
          match parseI32 hStr with
          | none => .error (.missingArguments "set viewport" "set viewport <width> <height>")
          | some h =>
            .ok (mkCmd id "viewport" [("width", .num w), ("height", .num h)])
  | some "device" =>
    match rest[1]? with
    | none => .error (.missingArguments "set device" "set device <name>")
    | some dev => .ok (mkCmd id "device" [("device", .str dev)])
  | some "geo" =>
    parseSetGeo rest id
  | some "geolocation" =>
    parseSetGeo rest id
  | some "offline" =>
    let off := ((rest[1]?).map (fun s => !(s == "off") && !(s == "false"))).getD true
    .ok (mkCmd id "offline" [("offline", .bool off)])
  | some "headers" =>
    match rest[1]? with
    | none => .error (.missingArguments "set headers" "set headers <json>")
    | some headersJson =>
      match fromStr headersJson with
      | none => .error (.missingArguments "set headers"
          "set headers <json> (must be valid JSON object)")
      | some headers => .ok (mkCmd id "headers" [("headers", headers)])
  | some "credentials" => parseSetCredentials rest id
  | some "auth" => parseSetCredentials rest id
  | some "media" =>
    let color :=
      if rest.any (fun s => s == "dark") then "dark"
      else if rest.any (fun s => s == "light") then "light"
      else "no-preference"
    let reduced := rest.any (fun s => s == "reduced-motion")
    .ok (mkCmd id "media"
      [("colorScheme", .str color), ("reducedMotion", .bool reduced)])
  | some sub =>
    .error (.unknownSubcommand sub
      ["viewport", "device", "geo", "geolocation", "offline", "headers",
       "credentials", "auth", "media"])
  | none =>
    .error (.missingArguments "set"
      "set <viewport|device|geo|offline|headers|credentials|media> [args...]")
where
  /-- The shared `geo`/`geolocation` arm. -/
  parseSetGeo (rest : List String) (id : String) : Except ParseError Json :=
    match rest[1]? with
    | none => .error (.missingArguments "set geo" "set geo <latitude> <longitude>")
    | some latStr =>
      match rest[2]? with
      | none => .error (.missingArguments "set geo" "set geo <latitude> <longitude>")
      | some lngStr =>
        match parseF64Lit latStr with
        | none => .error (.missingArguments "set geo" "set geo <latitude> <longitude>")
        | some lat =>
          match parseF64Lit lngStr with
          | none => .error (.missingArguments "set geo" "set geo <latitude> <longitude>")
          | some lng =>
            .ok (mkCmd id "geolocation"
              [("latitude", .floatLit lat), ("longitude", .floatLit lng)])
  /-- The shared `credentials`/`auth` arm. -/
  parseSetCredentials (rest : List String) (id : String) :
      Except ParseError Json :=
    match rest[1]? with
    | none => .error (.missingArguments "set credentials"
        "set credentials <username> <password>")
    | some user =>
      match rest[2]? with
      | none => .error (.missingArguments "set credentials"
          "set credentials <username> <password>")
      | some pass =>
        .ok (mkCmd id "credentials"
          [("username", .str user), ("password", .str pass)])

/-- `commands.rs` `parse_network` (lines 925–955). -/
def parse_network (rest : List String) (id : String) : Except ParseError Json :=
  match rest[0]? with
  | some "route" =>
    match rest[1]? with
    | none => .error (.missingArguments "network route"
        "network route <url> [--abort|--body <json>]")
    | some url =>
      let abort := rest.any (fun s => s == "--abort")
      let bodyIdx := rest.findIdx? (fun s => s == "--body")
      let body := bodyIdx.bind (fun i => rest[i + 1]?)
      .ok (mkCmd id "route"
        [("url", .str url), ("abort", .bool abort), ("body", ofOptStr body)])
  | some "unroute" => .ok (mkCmd id "unroute" [("url", ofOptStr rest[1]?)])
  | some "requests" =>
    let clear := rest.any (fun s => s == "--clear")
    let filterIdx := rest.findIdx? (fun s => s == "--filter")
    let filter := filterIdx.bind (fun i => rest[i + 1]?)
    .ok (mkCmd id "requests"
      [("clear", .bool clear), ("filter", ofOptStr filter)])
  | some sub => .error (.unknownSubcommand sub ["route", "unroute", "requests"])
  | none =>
    .error (.missingArguments "network"
      "network <route|unroute|requests> [args...]")

/-- `commands.rs` `parse_storage` (lines 957–997); `ty` is the matched
`local`/`session` storage type. -/
def parseStorageOps (rest : List String) (id ty : String) :
    Except ParseError Json :=
  let op := (rest[1]?).getD "get"
  match op with
  | "set" =>
    match rest[2]? with
    | none => .error (.missingArguments ("storage " ++ ty ++ " set")
        "storage <local|session> set <key> <value>")
    | some k =>
      match rest[3]? with
      | none => .error (.missingArguments ("storage " ++ ty ++ " set")
          "storage <local|session> set <key> <value>")
      | some v =>
        .ok (mkCmd id "storage_set"
          [("type", .str ty), ("key", .str k), ("value", .str v)])
  | "clear" => .ok (mkCmd id "storage_clear" [("type", .str ty)])
  | _ =>
    let cmd := mkCmd id "storage_get" [("type", .str ty)]
    match rest[2]? with
    | some k => .ok (jsonSet cmd "key" (.str k))
    | none => .ok cmd

/-- `commands.rs` `parse_storage` dispatch on the storage type. -/
def parse_storage (rest : List String) (id : String) : Except ParseError Json :=
  match rest[0]? with
  | some "local" => parseStorageOps rest id "local"
  | some "session" => parseStorageOps rest id "session"
  | some sub => .error (.unknownSubcommand sub ["local", "session"])
  | none =>
    .error (.missingArguments "storage"
      "storage <local|session> [get|set|clear] [key] [value]")

/-- `commands.rs` lines 292–321: the `snapshot` option loop, with its index
made structural.  An unparsable `--depth` value is not consumed (the source
only bumps `i` past the value on a successful parse, so the value is
processed as the next option). -/
def snapshotLoop : Json → List String → Json
  | cmd, [] => cmd
  | cmd, a :: rest =>
    match a with
    | "-i" | "--interactive" =>
      snapshotLoop (jsonSet cmd "interactive" (.bool true)) rest
    | "-c" | "--compact" =>
      snapshotLoop (jsonSet cmd "compact" (.bool true)) rest
    | "-d" | "--depth" =>
      match h : rest with
      | [] => cmd
      | d :: rest2 =>
        match parseI32 d with
        | some n => snapshotLoop (jsonSet cmd "maxDepth" (.num n)) rest2
        | none => snapshotLoop cmd rest
    | "-s" | "--selector" =>
      match rest with
      | [] => cmd
      | s2 :: rest2 => snapshotLoop (jsonSet cmd "selector" (.str s2)) rest2
    | _ => snapshotLoop cmd rest
termination_by c l => l.length
decreasing_by all_goals (simp_all; try omega)

/-- `commands.rs` lines 331–357: the `start` command's conditional
configuration fields, applied in source order. -/
def startConfig (flags : Flags) (cmd : Json) : Json :=
  let c1 := match flags.profile with
    | some p => jsonSet cmd "profile" (.str p)
    | none => cmd
  let c2 := match flags.proxy with
    | some p => jsonSet c1 "proxy" (.str p)
    | none => c1
  let c3 := match flags.user_agent with
    | some ua => jsonSet c2 "userAgent" (.str ua)
    | none => c2
  let c4 := match flags.args with
    | some a => jsonSet c3 "args" (.str a)
    | none => c3
  let c5 := if flags.ignore_https_errors then
      jsonSet c4 "ignoreHTTPSErrors" (.bool true)
    else c4
  match flags.state with
  | some st => jsonSet c5 "storageState" (.str st)
  | none => c5

/-- `commands.rs` lines 502–553: the `record start`/`record restart` arms
(`action` is `recording_start` or `recording_restart`). -/
def recordCmd (rest : List String) (id action context usage : String) :
    Except ParseError Json :=
  match rest[1]? with
  | none => .error (.missingArguments context usage)
  | some path =>
    let cmd := mkCmd id action [("path", .str path)]
    match rest[2]? with
    | none => .ok cmd
    | some u =>
      let urlStr := if u.startsWith "http" then u else "https://" ++ u
      .ok (jsonSet cmd "url" (.str urlStr))

/-- `commands.rs` `parse_command` (lines 59–603).  `fromStr` is the
`serde_json::from_str` oracle, `micros` the invocation clock read by
`gen_id`, `args` the cleaned argument list, `flags` the parsed global
flags. -/
def parse_command (fromStr : String → Option Json) (micros : Nat)
    (args : List String) (flags : Flags) : Except ParseError Json :=
  match args with
  | [] => .error (.missingArguments "" "<command> [args...]")
  | cmd :: rest =>
    let id := gen_id micros
    match cmd with
    | "open" | "goto" | "navigate" =>
      match rest[0]? with
      | none => .error (.missingArguments cmd "open <url>")
      | some url0 =>
        let url :=
          if url0.startsWith "http" || url0.startsWith "about:" ||
              url0.startsWith "data:" || url0.startsWith "file:" then url0
          else "https://" ++ url0
        let navCmd := mkCmd id "navigate" [("url", .str url)]
        match flags.headers with
        | some headersJson =>
          match fromStr headersJson with
          | some headers => .ok (jsonSet navCmd "headers" headers)
          | none => .ok navCmd
        | none => .ok navCmd
    | "back" => .ok (mkCmd id "back" [])
    | "forward" => .ok (mkCmd id "forward" [])
    | "reload" => .ok (mkCmd id "reload" [])
    | "click" =>
      match rest[0]? with
      | none => .error (.missingArguments "click" "click <selector>")
      | some sel => .ok (mkCmd id "click" [("selector", .str sel)])
    | "dblclick" =>
      match rest[0]? with
      | none => .error (.missingArguments "dblclick" "dblclick <selector>")
      | some sel => .ok (mkCmd id "dblclick" [("selector", .str sel)])
    | "fill" =>
      match rest[0]? with
      | none => .error (.missingArguments "fill" "fill <selector> <text>")
      | some sel =>
        .ok (mkCmd id "fill"
          [("selector", .str sel), ("value", .str (joinSpace (rest.drop 1)))])
    | "type" =>
      match rest[0]? with
      | none => .error (.missingArguments "type" "type <selector> <text>")
      | some sel =>
        .ok (mkCmd id "type"
          [("selector", .str sel), ("text", .str (joinSpace (rest.drop 1)))])
    | "hover" =>
      match rest[0]? with
      | none => .error (.missingArguments "hover" "hover <selector>")
      | some sel => .ok (mkCmd id "hover" [("selector", .str sel)])
    | "focus" =>
      match rest[0]? with
      | none => .error (.missingArguments "focus" "focus <selector>")
      | some sel => .ok (mkCmd id "focus" [("selector", .str sel)])
    | "check" =>
      match rest[0]? with
      | none => .error (.missingArguments "check" "check <selector>")
      | some sel => .ok (mkCmd id "check" [("selector", .str sel)])
    | "uncheck" =>
      match rest[0]? with
      | none => .error (.missingArguments "uncheck" "uncheck <selector>")
      | some sel => .ok (mkCmd id "uncheck" [("selector", .str sel)])
    | "select" =>
      match rest[0]? with
      | none => .error (.missingArguments "select" "select <selector> <value>")
      | some sel =>
        match rest[1]? with
        | none => .error (.missingArguments "select" "select <selector> <value>")
        | some val =>
          .ok (mkCmd id "select" [("selector", .str sel), ("value", .str val)])
    | "drag" =>
      match rest[0]? with
      | none => .error (.missingArguments "drag" "drag <source> <target>")
      | some src =>
        match rest[1]? with
        | none => .error (.missingArguments "drag" "drag <source> <target>")
        | some tgt =>
          .ok (mkCmd id "drag" [("source", .str src), ("target", .str tgt)])
    | "upload" =>
      match rest[0]? with
      | none => .error (.missingArguments "upload" "upload <selector> <files...>")
      | some sel =>
        .ok (mkCmd id "upload"
          [("selector", .str sel),
           ("files", .arr ((rest.drop 1).map (fun f => .str f)))])
    | "press" | "key" =>
      match rest[0]? with
      | none => .error (.missingArguments "press" "press <key>")
      | some key => .ok (mkCmd id "press" [("key", .str key)])
    | "keydown" =>
      match rest[0]? with
      | none => .error (.missingArguments "keydown" "keydown <key>")
      | some key => .ok (mkCmd id "keydown" [("key", .str key)])
    | "keyup" =>
      match rest[0]? with
      | none => .error (.missingArguments "keyup" "keyup <key>")
      | some key => .ok (mkCmd id "keyup" [("key", .str key)])
    | "scroll" =>
      let dir := (rest[0]?).getD "down"
      let amount := ((rest[1]?).bind parseI32).getD 300
      .ok (mkCmd id "scroll" [("direction", .str dir), ("amount", .num amount)])
    | "scrollintoview" | "scrollinto" =>
      match rest[0]? with
      | none => .error (.missingArguments "scrollintoview" "scrollintoview <selector>")
      | some sel => .ok (mkCmd id "scrollintoview" [("selector", .str sel)])
    | "wait" =>
      match rest.findIdx? (fun s => s == "--url" || s == "-u") with
      | some idx =>
        match rest[idx + 1]? with
        | none => .error (.missingArguments "wait --url" "wait --url <pattern>")
        | some url => .ok (mkCmd id "waitforurl" [("url", .str url)])
      | none =>
      match rest.findIdx? (fun s => s == "--load" || s == "-l") with
      | some idx =>
        match rest[idx + 1]? with
        | none => .error (.missingArguments "wait --load" "wait --load <state>")
        | some st => .ok (mkCmd id "waitforloadstate" [("state", .str st)])
      | none =>
      match rest.findIdx? (fun s => s == "--fn" || s == "-f") with
      | some idx =>
        match rest[idx + 1]? with
        | none => .error (.missingArguments "wait --fn" "wait --fn <expression>")
        | some expr => .ok (mkCmd id "waitforfunction" [("expression", .str expr)])
      | none =>
      match rest.findIdx? (fun s => s == "--text" || s == "-t") with
      | some idx =>
        match rest[idx + 1]? with
        | none => .error (.missingArguments "wait --text" "wait --text <text>")
        | some text =>
          .ok (mkCmd id "wait" [("selector", .str ("text=" ++ text))])
      | none =>
      match rest[0]? with
      | some arg =>
        match parseU64 arg with
        | some t => .ok (mkCmd id "wait" [("timeout", .num (t : Int))])
        | none => .ok (mkCmd id "wait" [("selector", .str arg)])
      | none =>
        .error (.missingArguments "wait" "wait <selector|ms|--url|--load|--fn|--text>")
    | "screenshot" =>
      let cmd := mkCmd id "screenshot" [("fullPage", .bool flags.full)]
      match rest[0]? with
      | some path => .ok (jsonSet cmd "path" (.str path))
      | none => .ok cmd
    | "pdf" =>
      match rest[0]? with
      | none => .error (.missingArguments "pdf" "pdf <path>")
      | some path => .ok (mkCmd id "pdf" [("path", .str path)])
    | "snapshot" => .ok (snapshotLoop (mkCmd id "snapshot" []) rest)
    | "eval" => .ok (mkCmd id "evaluate" [("script", .str (joinSpace rest))])
    | "close" | "quit" | "exit" | "stop" => .ok (mkCmd id "close" [])
    | "start" =>
      .ok (startConfig flags
        (mkCmd id "configure"
          [("headless", .bool !flags.headed), ("stealth", .bool flags.stealth)]))
    | "status" => .ok (mkCmd id "status" [])
    | "connect" =>
      match rest[0]? with
      | none => .error (.missingArguments "connect" "connect <port|ws://url>")
      | some endpoint =>
        if endpoint.startsWith "ws://" || endpoint.startsWith "wss://" then
          .ok (mkCmd id "launch" [("cdpPort", .str endpoint)])
        else
          match parseU16 endpoint with
          | none => .error (.missingArguments
              ("connect: invalid endpoint " ++ endpoint ++
               ". Use port number or ws:// URL")
              "connect <port|ws://url>")
          | some port => .ok (mkCmd id "launch" [("cdpPort", .num (port : Int))])
    | "get" => parse_get rest id
    | "is" => parse_is rest id
    | "find" => parse_find rest id
    | "mouse" => parse_mouse rest id
    | "set" => parse_set fromStr rest id
    | "network" => parse_network rest id
    | "storage" => parse_storage rest id
    | "cookies" =>
      match (rest[0]?).getD "get" with
      | "set" =>
        match rest[1]? with
        | none => .error (.missingArguments "cookies set" "cookies set <name> <value>")
        | some name =>
          match rest[2]? with
          | none => .error (.missingArguments "cookies set" "cookies set <name> <value>")
          | some value =>
            .ok (mkCmd id "cookies_set"
              [("cookies",
                .arr [.obj [("name", .str name), ("value", .str value)]])])
      | "clear" => .ok (mkCmd id "cookies_clear" [])
      | _ => .ok (mkCmd id "cookies_get" [])
    | "tab" =>
      match rest[0]? with
      | some "new" => .ok (mkCmd id "tab_new" [("url", ofOptStr rest[1]?)])
      | some "list" => .ok (mkCmd id "tab_list" [])
      | some "close" =>
        .ok (mkCmd id "tab_close" [("index", ofOptInt ((rest[1]?).bind parseI32))])
      | some n =>
        match parseI32 n with
        | some i => .ok (mkCmd id "tab_switch" [("index", .num i)])
        | none => .ok (mkCmd id "tab_list" [])
      | none => .ok (mkCmd id "tab_list" [])
    | "window" =>
      match rest[0]? with
      | some "new" => .ok (mkCmd id "window_new" [])
      | some sub => .error (.unknownSubcommand sub ["new"])
      | none => .error (.missingArguments "window" "window <new>")
    | "frame" =>
      match rest[0]? with
      | some "main" => .ok (mkCmd id "frame_main" [])
      | some sel => .ok (mkCmd id "frame" [("selector", .str sel)])
      | none => .error (.missingArguments "frame" "frame <selector|main>")
    | "dialog" =>
      match rest[0]? with
      | some "accept" =>
        .ok (mkCmd id "dialog"
          [("response", .str "accept"), ("promptText", ofOptStr rest[1]?)])
      | some "dismiss" => .ok (mkCmd id "dialog" [("response", .str "dismiss")])
      | some sub => .error (.unknownSubcommand sub ["accept", "dismiss"])
      | none => .error (.missingArguments "dialog" "dialog <accept|dismiss> [text]")
    | "trace" =>
      match rest[0]? with
      | some "start" =>
        .ok (mkCmd id "trace_start" [("path", ofOptStr rest[1]?)])
      | some "stop" =>
        .ok (mkCmd id "trace_stop" [("path", ofOptStr rest[1]?)])
      | some sub => .error (.unknownSubcommand sub ["start", "stop"])
      | none => .error (.missingArguments "trace" "trace <start|stop> [path]")
    | "record" =>
      match rest[0]? with
      | some "start" =>
        recordCmd rest id "recording_start" "record start"
          "record start <output.webm> [url]"
      | some "stop" => .ok (mkCmd id "recording_stop" [])
      | some "restart" =>
        recordCmd rest id "recording_restart" "record restart"
          "record restart <output.webm> [url]"
      | some sub => .error (.unknownSubcommand sub ["start", "stop", "restart"])
      | none =>
        .error (.missingArguments "record" "record <start|stop|restart> [path] [url]")
    | "console" =>
      .ok (mkCmd id "console" [("clear", .bool (rest.any (fun s => s == "--clear")))])
    | "errors" =>
      .ok (mkCmd id "errors" [("clear", .bool (rest.any (fun s => s == "--clear")))])
    | "highlight" =>
      match rest[0]? with
      | none => .error (.missingArguments "highlight" "highlight <selector>")
      | some sel => .ok (mkCmd id "highlight" [("selector", .str sel)])
    | "state" =>
      match rest[0]? with
      | some "save" =>
        match rest[1]? with
        | none => .error (.missingArguments "state save" "state save <path>")
        | some path => .ok (mkCmd id "state_save" [("path", .str path)])
      | some "load" =>
        match rest[1]? with
        | none => .error (.missingArguments "state load" "state load <path>")
        | some path => .ok (mkCmd id "state_load" [("path", .str path)])
      | some sub => .error (.unknownSubcommand sub ["save", "load"])
      | none => .error (.missingArguments "state" "state <save|load> <path>")
    | other => .error (.unknownCommand other)

/-! ## Concrete inputs used by witnesses and counterexamples -/

/-- A `Flags` value supplying every startup-configuration field, JSON mode
off. -/
def fAllSet : Flags where
  json := false
  full := false
  headed := false
  debug := false
  session := "default"
  headers := none
  executable_path := some "/chrome"
  cdp := none
  extensions := ["ext"]
  proxy := none
  profile := some "prof"
  ignore_https_errors := true
  session_name := none
  state := some "state.json"
  persist := true
  args := none
  user_agent := none
  stealth := true
  backend := some "camoufox"

/-- The same startup configuration with JSON output mode on. -/
def fJsonMode : Flags := { fAllSet with json := true }

/-- A marker file for session `foo` whose stored process id is dead. -/
def deadEntry : DirEntry := ⟨strOf "agent-browser-foo.pid", some (strOf "123")⟩

/-- A marker entry with readable, parsable content (for the skip witness). -/
def okEntry : DirEntry := ⟨strOf "agent-browser-a.pid", some (strOf "7")⟩

/-- A marker entry whose content is empty (no valid process id). -/
def emptyEntry : DirEntry := ⟨strOf "agent-browser-b.pid", some (strOf "")⟩

/-- A `serde_json::from_str` oracle that rejects every input. -/
def noJson : String → Option Json := fun _ => none

/-- The default flags of an empty environment and no arguments. -/
def flags0 : Flags := initFlags Env.empty

/-- The command `parse_command` builds for `["back"]` at clock 5. -/
def backCmd : Json := mkCmd (gen_id 5) "back" []

/-- The command `parse_command` builds for `["upload", "#f", "a"]` at
clock 0. -/
def uploadCmd : Json :=
  mkCmd (gen_id 0) "upload"
    [("selector", .str "#f"), ("files", .arr [.str "a"])]

/-!
# Theorems

Helper lemmas come first; each claim is then settled by exactly one theorem
(`C1_…` to `C10_…`), with a closed witness or counterexample where one is
called for.
-/

/-- `parseFlagsLoop` only writes the session field at a `--session` arm:
without that token the session is untouched. -/
theorem parseFlagsLoop_session_inv :
    ∀ (f : Flags) (args : List String), "--session" ∉ args →
      (parseFlagsLoop f args).session = f.session := by
  intro f args
  induction f, args using parseFlagsLoop.induct <;> intro h <;>
    first
    | rfl
    | exact absurd (List.mem_cons_self _ _) h
    | (rename_i ih
       exact ih (fun hm => h (List.mem_cons_of_mem _ hm)))
    | (rename_i ih
       exact ih (fun hm => h (List.mem_cons_of_mem _ (List.mem_cons_of_mem _ hm))))
    | (rename_i ih
       rw [parseFlagsLoop.eq_def]
       split <;> simp_all)

/-- C6 (amended): with no `--session` token among the arguments and no
session environment variable, the session name is `"default"`; and a
`--session` token that is processed as a flag (from any parser state, so in
particular not consumed as the value of a preceding value-taking flag) with
a following value sets the session to that value, the last such occurrence
winning. -/
theorem C6_session_name :
    (∀ (env : Env) (args : List String), env.session = none →
        "--session" ∉ args → (parse_flags env args).session = "default") ∧
    (∀ (f : Flags) (v : String) (post : List String), "--session" ∉ post →
        (parseFlagsLoop f ("--session" :: v :: post)).session = v) := by
  constructor
  · intro env args henv hargs
    unfold parse_flags
    rw [parseFlagsLoop_session_inv (initFlags env) args hargs]
    simp [initFlags, henv]
  · intro f v post hpost
    exact parseFlagsLoop_session_inv { f with session := v } post hpost

/-- C6 counterexample: the argument list `["--headers", "--session", "foo"]`
contains a `--session` flag immediately followed by the value `"foo"`, yet
the session used is `"default"`: the `--session` token is consumed as the
value of `--headers`. -/
theorem C6_counterexample :
    (parse_flags Env.empty ["--headers", "--session", "foo"]).session
        = "default" ∧
    "--session" ∈ ["--headers", "--session", "foo"] ∧
    ("default" : String) ≠ "foo" := by
  refine ⟨rfl, by decide, by decide⟩

/-- C10: with `NO_COLOR` set, `red`, `green`, `yellow`, `cyan`, `bold` and
`dim` each return their input unchanged; with it unset, each wraps the input
between its fixed ANSI escape code and the reset suffix, preserving the text
verbatim inside the result. -/
theorem C10_color_formatting :
    (∀ (v t : String),
      red (some v) t = t ∧ green (some v) t = t ∧ yellow (some v) t = t ∧
      cyan (some v) t = t ∧ bold (some v) t = t ∧ dim (some v) t = t) ∧
    (∀ t : String,
      red none t = "\x1b[31m" ++ t ++ "\x1b[0m" ∧
      green none t = "\x1b[32m" ++ t ++ "\x1b[0m" ∧
      yellow none t = "\x1b[33m" ++ t ++ "\x1b[0m" ∧
      cyan none t = "\x1b[36m" ++ t ++ "\x1b[0m" ∧
      bold none t = "\x1b[1m" ++ t ++ "\x1b[0m" ∧
      dim none t = "\x1b[2m" ++ t ++ "\x1b[0m") := by
  exact ⟨fun v t => ⟨rfl, rfl, rfl, rfl, rfl, rfl⟩,
    fun t => ⟨rfl, rfl, rfl, rfl, rfl, rfl⟩⟩

/-- C3: a Response accepted by `send_command` for Command identifier `X`
carries, when present, the identifier `X`; a Response carrying any other
identifier yields a ProtocolError. -/
theorem C3_response_correlation :
    (∀ (cmdId : String) (wire resp : Response),
        send_command cmdId wire = .ok resp →
        ∀ rid, resp.id = some rid → rid = cmdId) ∧
    (∀ (cmdId : String) (wire : Response) (rid : String),
        wire.id = some rid → rid ≠ cmdId →
        send_command cmdId wire = .error .protocolError) := by
  constructor
  · intro cmdId wire resp h rid hrid
    unfold send_command check_response_id at h
    rcases hw : wire.id with _ | wid
    · rw [hw] at h
      simp at h
      rw [← h] at hrid
      rw [hw] at hrid
      cases hrid
    · rw [hw] at h
      by_cases he : wid = cmdId
      · subst he
        simp at h
        rw [← h] at hrid
        rw [hw] at hrid
        cases hrid
        rfl
      · simp [he] at h
  · intro cmdId wire rid hid hne
    unfold send_command check_response_id
    rw [hid]
    simp [hne]

/-- C1 (amended): when the daemon was already running, JSON output mode is
off, and a startup-configuration field was supplied with a non-default
value, the warning block of `main` emits the `IgnoredConfiguration` warning
naming that field — one warning per supplied field; the block only prints
warnings (it neither applies the configuration nor fails).  In JSON mode the
warnings are suppressed. -/
theorem C1_ignored_config_warnings (f : Flags) (hjson : f.json = false) :
    (f.executable_path.isSome = true →
        ConfigField.executablePath ∈ config_warnings true f) ∧
    (f.extensions ≠ [] → ConfigField.extensions ∈ config_warnings true f) ∧
    (f.profile.isSome = true → ConfigField.profile ∈ config_warnings true f) ∧
    (f.ignore_https_errors = true →
        ConfigField.ignoreHTTPSErrors ∈ config_warnings true f) ∧
    (f.state.isSome = true → ConfigField.stateFile ∈ config_warnings true f) ∧
    (f.persist = true → ConfigField.persist ∈ config_warnings true f) ∧
    (f.stealth = true → ConfigField.stealth ∈ config_warnings true f) ∧
    (f.backend.isSome = true → ConfigField.backend ∈ config_warnings true f) := by
  refine ⟨?_, ?_, ?_, ?_, ?_, ?_, ?_, ?_⟩ <;>
    intro hx <;>
    simp [config_warnings, anyStartupConfigSupplied, hjson, hx]

/-- C1 witness: with every startup-configuration field supplied and JSON
mode off, every per-field warning is emitted. -/
theorem C1_ignored_config_warnings_witness :
    ConfigField.executablePath ∈ config_warnings true fAllSet ∧
    ConfigField.extensions ∈ config_warnings true fAllSet ∧
    ConfigField.profile ∈ config_warnings true fAllSet ∧
    ConfigField.ignoreHTTPSErrors ∈ config_warnings true fAllSet ∧
    ConfigField.stateFile ∈ config_warnings true fAllSet ∧
    ConfigField.persist ∈ config_warnings true fAllSet ∧
    ConfigField.stealth ∈ config_warnings true fAllSet ∧
    ConfigField.backend ∈ config_warnings true fAllSet := by
  have h := C1_ignored_config_warnings fAllSet rfl
  exact ⟨h.1 rfl, h.2.1 (by decide), h.2.2.1 rfl, h.2.2.2.1 rfl,
    h.2.2.2.2.1 rfl, h.2.2.2.2.2.1 rfl, h.2.2.2.2.2.2.1 rfl,
    h.2.2.2.2.2.2.2 rfl⟩

/-- `cleanArgsLoop` yields a subsequence of its input. -/
theorem cleanArgsLoop_sublist (skip : Bool) (args : List String) :
    (cleanArgsLoop skip args).Sublist args := by
  induction skip, args using cleanArgsLoop.induct with
  | case1 x => rw [show cleanArgsLoop x [] = [] from by cases x <;> rfl]
  | case2 a rest ih => exact ih.cons a
  | case3 a rest hc ih =>
    have hm : a ∈ GLOBAL_FLAGS_WITH_VALUE := by simpa using hc
    have e : cleanArgsLoop false (a :: rest) = cleanArgsLoop true rest := by
      simp [cleanArgsLoop, hm]
    rw [e]
    exact ih.cons a
  | case4 a rest hc1 hc2 ih =>
    have hm1 : a ∉ GLOBAL_FLAGS_WITH_VALUE := by simpa using hc1
    have hm2 : (a ∈ GLOBAL_FLAGS ∨ a = "-f") ∨ a = "-p" := by simpa using hc2
    have e : cleanArgsLoop false (a :: rest) = cleanArgsLoop false rest := by
      simp [cleanArgsLoop, hm1, hm2]
    rw [e]
    exact ih.cons a
  | case5 a rest hc1 hc2 ih =>
    have hm1 : a ∉ GLOBAL_FLAGS_WITH_VALUE := by simpa using hc1
    have hm2 : ¬((a ∈ GLOBAL_FLAGS ∨ a = "-f") ∨ a = "-p") := by simpa using hc2
    have e : cleanArgsLoop false (a :: rest) = a :: cleanArgsLoop false rest := by
      simp [cleanArgsLoop, hm1, hm2]
    rw [e]
    exact ih.cons₂ a

/-- Every string kept by `cleanArgsLoop` is not a global-flag token. -/
theorem cleanArgsLoop_no_flag (skip : Bool) (args : List String) :
    ∀ x ∈ cleanArgsLoop skip args, isGlobalFlagToken x = false := by
  induction skip, args using cleanArgsLoop.induct with
  | case1 x =>
    rw [show cleanArgsLoop x [] = [] from by cases x <;> rfl]
    intro y hy
    cases hy
  | case2 a rest ih => exact ih
  | case3 a rest hc ih =>
    have hm : a ∈ GLOBAL_FLAGS_WITH_VALUE := by simpa using hc
    have e : cleanArgsLoop false (a :: rest) = cleanArgsLoop true rest := by
      simp [cleanArgsLoop, hm]
    rw [e]
    exact ih
  | case4 a rest hc1 hc2 ih =>
    have hm1 : a ∉ GLOBAL_FLAGS_WITH_VALUE := by simpa using hc1
    have hm2 : (a ∈ GLOBAL_FLAGS ∨ a = "-f") ∨ a = "-p" := by simpa using hc2
    have e : cleanArgsLoop false (a :: rest) = cleanArgsLoop false rest := by
      simp [cleanArgsLoop, hm1, hm2]
    rw [e]
    exact ih
  | case5 a rest hc1 hc2 ih =>
    have hm1 : a ∉ GLOBAL_FLAGS_WITH_VALUE := by simpa using hc1
    have hm2 : ¬((a ∈ GLOBAL_FLAGS ∨ a = "-f") ∨ a = "-p") := by simpa using hc2
    have e : cleanArgsLoop false (a :: rest) = a :: cleanArgsLoop false rest := by
      simp [cleanArgsLoop, hm1, hm2]
    rw [e]
    intro x hx
    rcases List.mem_cons.mp hx with hxa | hxm
    · subst hxa
      simp only [isGlobalFlagToken]
      simp_all
    · exact ih x hxm

/-- `clean_args` computes exactly the claim-level description
`cleanArgsSpec`. -/
theorem cleanArgsLoop_eq_spec :
    ∀ (args : List String), cleanArgsLoop false args = cleanArgsSpec args := by
  intro args
  induction args using cleanArgsSpec.induct <;>
    simp_all [cleanArgsLoop, cleanArgsSpec]

/-- C9: `clean_args` returns an order-preserving subsequence of the
arguments, no kept element is a known global flag (either flag table or the
short forms), and the result agrees with the claim's description: each
value-taking global flag is removed together with the immediately following
argument, each valueless global flag is removed alone, and every other
argument is kept unchanged. -/
theorem C9_clean_args :
    (∀ args : List String, (clean_args args).Sublist args) ∧
    (∀ (args : List String) (x : String),
        x ∈ clean_args args → isGlobalFlagToken x = false) ∧
    (∀ args : List String, clean_args args = cleanArgsSpec args) := by
  refine ⟨fun args => cleanArgsLoop_sublist false args,
    fun args => cleanArgsLoop_no_flag false args,
    fun args => cleanArgsLoop_eq_spec args⟩

/-- The characterization of one directory entry's contribution to the
session listing. -/
theorem sessionEntry_eq_some (isAlivePid : Nat → Bool) (e : DirEntry)
    (sn : Str) :
    sessionEntry isAlivePid e = some sn ↔
      sessionNameOf e.name = some sn ∧
        ∃ c pid, e.content = some c ∧ parseU32 (trimL c) = some pid ∧
          isAlivePid pid = true := by
  unfold sessionEntry
  rcases h1 : sessionNameOf e.name with _ | sn0
  · simp [h1]
  · rcases h2 : e.content with _ | c
    · simp [h1, h2]
    · rcases h3 : parseU32 (trimL c) with _ | pid
      · simp [h1, h2, h3]
      · by_cases h4 : isAlivePid pid = true
        · simp [h1, h2, h3, h4]
        · simp [h1, h2, h3, h4]

/-- C2 (amended): a session name appears in the listing exactly when some
directory entry matches the session-marker convention with that name, its
content is readable, the stored pid parses, and the liveness probe reports
the process alive — dead-marker sessions are omitted from the listing
rather than reported with a false liveness flag. -/
theorem C2_list_sessions (isAlivePid : Nat → Bool) (entries : List DirEntry)
    (sn : Str) :
    sn ∈ listSessions isAlivePid entries ↔
      ∃ e ∈ entries, sessionNameOf e.name = some sn ∧
        ∃ c pid, e.content = some c ∧ parseU32 (trimL c) = some pid ∧
          isAlivePid pid = true := by
  unfold listSessions
  rw [List.mem_filterMap]
  constructor
  · rintro ⟨e, he, hs⟩
    exact ⟨e, he, (sessionEntry_eq_some _ _ _).mp hs⟩
  · rintro ⟨e, he, hs⟩
    exact ⟨e, he, (sessionEntry_eq_some _ _ _).mpr hs⟩

/-- C2 counterexample: a marker file matching the convention whose process
is dead produces an empty listing — the claim demands an entry
`(foo, alive = false)`. -/
theorem C2_counterexample :
    sessionNameOf deadEntry.name = some (strOf "foo") ∧
    listSessions (fun _ => false) [deadEntry] = [] := by
  exact ⟨rfl, rfl⟩

/-- C4: a marker entry that is unreadable, or whose content (empty or
otherwise) does not parse as a process id, contributes nothing to the
listing: it is skipped, and the rest of the enumeration is unaffected — the
enumeration never fails. -/
theorem C4_bad_marker_skipped (isAlivePid : Nat → Bool)
    (pre post : List DirEntry) (e : DirEntry)
    (h : e.content = none ∨
      ∃ c, e.content = some c ∧ parseU32 (trimL c) = none) :
    sessionEntry isAlivePid e = none ∧
    listSessions isAlivePid (pre ++ e :: post) =
      listSessions isAlivePid (pre ++ post) := by
  have he : sessionEntry isAlivePid e = none := by
    unfold sessionEntry
    rcases h with hnone | ⟨c, hc, hp⟩
    · rcases h1 : sessionNameOf e.name with _ | sn0 <;> simp [h1, hnone]
    · rcases h1 : sessionNameOf e.name with _ | sn0 <;> simp [h1, hc, hp]
  refine ⟨he, ?_⟩
  unfold listSessions
  simp [List.filterMap_append, List.filterMap_cons, he]

/-- C4 witness: an empty marker file is skipped and leaves the listing of
the remaining entries unchanged. -/
theorem C4_bad_marker_skipped_witness :
    sessionEntry (fun _ => true) emptyEntry = none ∧
    listSessions (fun _ => true) ([okEntry] ++ emptyEntry :: []) =
      listSessions (fun _ => true) ([okEntry] ++ []) := by
  exact C4_bad_marker_skipped (fun _ => true) [okEntry] [] emptyEntry
    (Or.inr ⟨strOf "", rfl, by decide⟩)

/-- C7: the marker filename derived from a non-empty session name matches
the session-marker convention, and stripping the fixed prefix and the
`.pid` suffix recovers exactly the session name (the enumeration's
name-derivation inverts the marker-filename derivation). -/
theorem C7_marker_roundtrip (s : Str) (h : s ≠ []) :
    sessionNameOf (markerFileName s) = some s := by
  have h1 : (markerPre ++ s ++ markerSuf).take markerPre.length = markerPre := by
    rw [List.append_assoc]
    exact List.take_left _ _
  have h2 : (markerPre ++ s ++ markerSuf).drop markerPre.length
      = s ++ markerSuf := by
    rw [List.append_assoc]
    exact List.drop_left _ _
  have h3 : (s ++ markerSuf).length - markerSuf.length = s.length := by simp
  have h4 : (s ++ markerSuf).drop s.length = markerSuf := List.drop_left _ _
  have h5 : (s ++ markerSuf).take s.length = s := List.take_left _ _
  have hlen : markerSuf.length ≤ (s ++ markerSuf).length := by simp
  have harith : markerPre.length + (s.length + markerSuf.length)
      - markerSuf.length = (markerPre ++ s).length := by
    simp only [List.length_append]
    omega
  have h7 : (markerPre ++ (s ++ markerSuf)).drop
      (markerPre.length + (s.length + markerSuf.length) - markerSuf.length)
      = markerSuf := by
    rw [harith, ← List.append_assoc]
    exact List.drop_left _ _
  have hlen2 : markerSuf.length
      ≤ markerPre.length + (s.length + markerSuf.length) := by omega
  unfold markerFileName at h1 h2 h3 h4 h5 hlen ⊢
  simp only [sessionNameOf, startsWith, endsWith, stripPre, stripSuf]
  simp [h1, h2, h3, h4, h5, h7, hlen, hlen2, h]

/-- C7 witness: the round trip at the concrete session name `foo`. -/
theorem C7_marker_roundtrip_witness :
    sessionNameOf (markerFileName (strOf "foo")) = some (strOf "foo") :=
  C7_marker_roundtrip (strOf "foo") (by decide)

/-- `findSub?` locates the first `://` right after a colon-free protocol. -/
theorem findSub_pat (p r : Str) (hp : ':' ∉ p) :
    findSub? (strOf "://") (p ++ ':' :: '/' :: '/' :: r) = some p.length := by
  induction p with
  | nil =>
    rw [List.nil_append, findSub?]
    simp [startsWith, strOf]
  | cons c p2 ih =>
    have hc : c ≠ ':' := by
      intro he
      exact hp (he ▸ List.mem_cons_self c p2)
    have hr : ':' ∉ p2 := fun hm => hp (List.mem_cons_of_mem c hm)
    have hsw : startsWith (c :: (p2 ++ ':' :: '/' :: '/' :: r)) (strOf "://")
        = false := by
      simp [startsWith, strOf, hc]
    rw [List.cons_append, findSub?, hsw, ih hr]
    simp

/-- A hit of `findSub?` really is an occurrence of the pattern. -/
theorem findSub_sound (pat : Str) :
    ∀ (s : Str) (i : Nat), findSub? pat s = some i →
      ∃ a b, s = a ++ pat ++ b := by
  intro s
  induction s with
  | nil =>
    intro i h
    rw [findSub?] at h
    by_cases hp : pat = []
    · exact ⟨[], [], by simp [hp]⟩
    · simp [hp] at h
  | cons c t ih =>
    intro i h
    rw [findSub?] at h
    by_cases hs : startsWith (c :: t) pat = true
    · refine ⟨[], (c :: t).drop pat.length, ?_⟩
      unfold startsWith at hs
      simp only [decide_eq_true_eq] at hs
      conv_lhs => rw [← List.take_append_drop pat.length (c :: t)]
      rw [hs]
      simp
    · simp only [hs] at h
      simp only [Bool.false_eq_true, if_false] at h
      rcases hf : findSub? pat t with _ | j
      · rw [hf] at h
        simp at h
      · rcases ih j hf with ⟨a, b, hab⟩
        exact ⟨c :: a, b, by simp [hab]⟩

/-- `rfindChar?` misses a character that does not occur. -/
theorem rfindChar_none (ch : Char) :
    ∀ s : Str, ch ∉ s → rfindChar? ch s = none := by
  intro s
  induction s with
  | nil => intro _; rfl
  | cons c t ih =>
    intro h
    have hc : c ≠ ch := by
      intro he
      exact h (he ▸ List.mem_cons_self c t)
    rw [rfindChar?, ih (fun hm => h (List.mem_cons_of_mem c hm))]
    simp [hc]

/-- `rfindChar?` finds the last occurrence: the one before a tail free of
the character. -/
theorem rfindChar_last (ch : Char) (creds host : Str) (hh : ch ∉ host) :
    rfindChar? ch (creds ++ ch :: host) = some creds.length := by
  induction creds with
  | nil =>
    rw [List.nil_append, rfindChar?, rfindChar_none ch host hh]
    simp
  | cons c t ih =>
    rw [List.cons_append, rfindChar?, ih]
    simp

/-- `findChar?` misses a character that does not occur. -/
theorem findChar_none (ch : Char) :
    ∀ s : Str, ch ∉ s → findChar? ch s = none := by
  intro s
  induction s with
  | nil => intro _; rfl
  | cons c t ih =>
    intro h
    have hc : c ≠ ch := by
      intro he
      exact h (he ▸ List.mem_cons_self c t)
    rw [findChar?, ih (fun hm => h (List.mem_cons_of_mem c hm))]
    simp [hc]

/-- `findChar?` finds the first occurrence: the one after a head free of
the character. -/
theorem findChar_first (ch : Char) (u w : Str) (hu : ch ∉ u) :
    findChar? ch (u ++ ch :: w) = some u.length := by
  induction u with
  | nil => simp [findChar?]
  | cons c t ih =>
    have hc : c ≠ ch := by
      intro he
      exact hu (he ▸ List.mem_cons_self c t)
    rw [List.cons_append, findChar?]
    simp [hc, ih (fun hm => hu (List.mem_cons_of_mem c hm))]

/-- C8: `parse_proxy` splits `<protocol>://<credentials>@<host>` at the
last `@` and the first `:` of the credentials — so the password may itself
contain `:` and `@`; credentials without a colon yield that username and an
empty password; an input without `://`, or without an `@` after it, is
returned whole as the server with no username or password fields. -/
theorem C8_parse_proxy :
    (∀ (p u pw host : Str), ':' ∉ p → ':' ∉ u → '@' ∉ host →
        parse_proxy (p ++ ':' :: '/' :: '/' :: ((u ++ ':' :: pw) ++ '@' :: host))
          = ⟨p ++ ':' :: '/' :: '/' :: host, some u, some pw⟩) ∧
    (∀ (p u host : Str), ':' ∉ p → ':' ∉ u → '@' ∉ host →
        parse_proxy (p ++ ':' :: '/' :: '/' :: (u ++ '@' :: host))
          = ⟨p ++ ':' :: '/' :: '/' :: host, some u, some []⟩) ∧
    (∀ s : Str, (∀ a b, s ≠ a ++ ':' :: '/' :: '/' :: b) →
        parse_proxy s = ⟨s, none, none⟩) ∧
    (∀ (p r : Str), ':' ∉ p → '@' ∉ r →
        parse_proxy (p ++ ':' :: '/' :: '/' :: r)
          = ⟨p ++ ':' :: '/' :: '/' :: r, none, none⟩) := by
  have hassoc : ∀ (p r : Str),
      p ++ ':' :: '/' :: '/' :: r = (p ++ [':', '/', '/']) ++ r := by
    intro p r
    simp
  have hdrop3 : ∀ (p r : Str),
      (p ++ ':' :: '/' :: '/' :: r).drop (p.length + 3) = r := by
    intro p r
    rw [hassoc, show p.length + 3 = (p ++ [':', '/', '/']).length by simp]
    exact List.drop_left _ _
  have htake3 : ∀ (p r : Str),
      (p ++ ':' :: '/' :: '/' :: r).take (p.length + 3) = p ++ [':', '/', '/'] := by
    intro p r
    rw [hassoc, show p.length + 3 = (p ++ [':', '/', '/']).length by simp]
    exact List.take_left _ _
  have hdrop1 : ∀ (x : Char) (u w : Str), (u ++ x :: w).drop (u.length + 1) = w := by
    intro x u w
    rw [show u ++ x :: w = (u ++ [x]) ++ w by simp,
      show u.length + 1 = (u ++ [x]).length by simp]
    exact List.drop_left _ _
  refine ⟨?_, ?_, ?_, ?_⟩
  · intro p u pw host hp hu hh
    have h1 := findSub_pat p ((u ++ ':' :: pw) ++ '@' :: host) hp
    have h2 := rfindChar_last '@' (u ++ ':' :: pw) host hh
    have h3 := findChar_first ':' u pw hu
    simp only [parse_proxy, h1, hdrop3, htake3, h2, List.take_left, hdrop1, h3]
    simp
  · intro p u host hp hu hh
    have h1 := findSub_pat p (u ++ '@' :: host) hp
    have h2 := rfindChar_last '@' u host hh
    have h3 := findChar_none ':' u hu
    simp only [parse_proxy, h1, hdrop3, htake3, h2, List.take_left, hdrop1, h3]
    simp
  · intro s hs
    have hf : findSub? (strOf "://") s = none := by
      rcases h : findSub? (strOf "://") s with _ | i
      · rfl
      · rcases findSub_sound (strOf "://") s i h with ⟨a, b, hab⟩
        exact absurd hab (by simpa [strOf] using hs a b)
    simp only [parse_proxy, hf]
  · intro p r hp hr
    have h1 := findSub_pat p r hp
    have h2 := rfindChar_none '@' r hr
    simp only [parse_proxy, h1, hdrop3, h2]

/-- The literal object built by `mkCmd` has the good command shape. -/
theorem goodCmd_mkCmd {id a : String} {extra : List (String × Json)} :
    goodCmd id (mkCmd id a extra) :=
  ⟨⟨_, rfl⟩, rfl, a, rfl⟩

/-- `setField` leaves lookups of other keys unchanged. -/
theorem find_setField (k k2 : String) (x : Json) (h : k ≠ k2) :
    ∀ fields : List (String × Json),
      List.find? (fun kv => kv.1 == k2) (setField fields k x)
        = List.find? (fun kv => kv.1 == k2) fields := by
  have hkk : (k == k2) = false := by simp [h]
  intro fields
  induction fields with
  | nil => simp [setField, List.find?, hkk]
  | cons kv tail ih =>
    rcases kv with ⟨k0, v0⟩
    by_cases hk0 : k0 = k
    · subst hk0
      have hne : (k0 == k2) = false := by simp [h]
      simp [setField, List.find?, hne]
    · by_cases hk2 : k0 = k2
      · subst hk2
        simp [setField, List.find?, hk0]
      · have hne : (k0 == k2) = false := by simp [hk2]
        simp [setField, List.find?, hk0, hne, ih]

/-- `jsonSet` leaves lookups of other keys unchanged. -/
theorem getField_jsonSet_ne (v : Json) (k k2 : String) (x : Json)
    (h : k ≠ k2) : getField (jsonSet v k x) k2 = getField v k2 := by
  cases v <;> simp [jsonSet, getField]
  rw [find_setField k k2 x h]

/-- `jsonSet` at a key other than `id`/`action` preserves the good shape. -/
theorem goodCmd_jsonSet {id : String} {v : Json} {k : String} {x : Json}
    (hg : goodCmd id v) (h1 : k ≠ "id") (h2 : k ≠ "action") :
    goodCmd id (jsonSet v k x) := by
  obtain ⟨⟨fields, hf⟩, hid, a, hact⟩ := hg
  subst hf
  refine ⟨⟨_, rfl⟩, ?_, a, ?_⟩
  · rw [getField_jsonSet_ne _ _ _ _ h1]
    exact hid
  · rw [getField_jsonSet_ne _ _ _ _ h2]
    exact hact

/-- The `snapshot` option loop preserves the good shape (it only inserts
option keys). -/
theorem goodCmd_snapshotLoop (id : String) :
    ∀ (n : Nat) (rest : List String) (cmd : Json), rest.length ≤ n →
      goodCmd id cmd → goodCmd id (snapshotLoop cmd rest) := by
  intro n
  induction n with
  | zero =>
    intro rest cmd hlen hg
    rcases rest with _ | ⟨a, rest⟩
    · rw [snapshotLoop.eq_def]
      exact hg
    · simp at hlen
  | succ n ih =>
    intro rest cmd hlen hg
    rcases rest with _ | ⟨a, rest⟩
    · rw [snapshotLoop.eq_def]
      exact hg
    · rw [snapshotLoop.eq_def]
      repeat' split
      all_goals first
        | exact hg
        | exact ih _ _ (by simp_all; omega)
            (goodCmd_jsonSet hg (by decide) (by decide))
        | exact ih _ _ (by simp_all; omega) hg
        | exact ih _ _ (by simp_all; try omega)
            (goodCmd_jsonSet hg (by decide) (by decide))
        | exact ih _ _ (by simp_all; try omega) hg

/-- Wrapper for `goodCmd_snapshotLoop` at the list's own length. -/
theorem goodCmd_snapshotLoop_all {id : String} {cmd : Json}
    {rest : List String} (hg : goodCmd id cmd) :
    goodCmd id (snapshotLoop cmd rest) :=
  goodCmd_snapshotLoop id rest.length rest cmd (le_refl _) hg

/-- The `start` command's conditional configuration fields preserve the
good shape. -/
theorem goodCmd_startConfig {id : String} (flags : Flags) (cmd : Json)
    (hg : goodCmd id cmd) : goodCmd id (startConfig flags cmd) := by
  simp only [startConfig]
  repeat' split
  all_goals
    repeat' first
      | exact hg
      | (apply goodCmd_jsonSet <;> try decide)

/-- `record start`/`record restart` commands have the good shape. -/
theorem recordCmd_good (rest : List String) (id action context usage : String)
    (v : Json) (h : recordCmd rest id action context usage = .ok v) :
    goodCmd id v := by
  unfold recordCmd at h
  repeat' split at h
  all_goals (try (cases h))
  all_goals first
    | exact goodCmd_mkCmd
    | exact goodCmd_jsonSet goodCmd_mkCmd (by decide) (by decide)

/-- `parse_get` results have the good shape. -/
theorem parse_get_good (rest : List String) (id : String) (v : Json)
    (h : parse_get rest id = .ok v) : goodCmd id v := by
  unfold parse_get at h
  repeat' split at h
  all_goals (try (cases h))
  all_goals exact goodCmd_mkCmd

/-- `parse_is` results have the good shape. -/
theorem parse_is_good (rest : List String) (id : String) (v : Json)
    (h : parse_is rest id = .ok v) : goodCmd id v := by
  unfold parse_is at h
  repeat' split at h
  all_goals (try (cases h))
  all_goals exact goodCmd_mkCmd

/-- `parse_find` results have the good shape. -/
theorem parse_find_good (rest : List String) (id : String) (v : Json)
    (h : parse_find rest id = .ok v) : goodCmd id v := by
  unfold parse_find at h
  repeat' split at h
  all_goals (try (cases h))
  all_goals exact goodCmd_mkCmd

/-- `parse_mouse` results have the good shape. -/
theorem parse_mouse_good (rest : List String) (id : String) (v : Json)
    (h : parse_mouse rest id = .ok v) : goodCmd id v := by
  unfold parse_mouse at h
  repeat' split at h
  all_goals (try (cases h))
  all_goals exact goodCmd_mkCmd

/-- The shared `geo` arm of `parse_set` has the good shape. -/
theorem parseSetGeo_good (rest : List String) (id : String) (v : Json)
    (h : parse_set.parseSetGeo rest id = .ok v) : goodCmd id v := by
  unfold parse_set.parseSetGeo at h
  repeat' split at h
  all_goals (try (cases h))
  all_goals exact goodCmd_mkCmd

/-- The shared `credentials` arm of `parse_set` has the good shape. -/
theorem parseSetCredentials_good (rest : List String) (id : String) (v : Json)
    (h : parse_set.parseSetCredentials rest id = .ok v) : goodCmd id v := by
  unfold parse_set.parseSetCredentials at h
  repeat' split at h
  all_goals (try (cases h))
  all_goals exact goodCmd_mkCmd

/-- `parse_set` results have the good shape. -/
theorem parse_set_good (fromStr : String → Option Json) (rest : List String)
    (id : String) (v : Json) (h : parse_set fromStr rest id = .ok v) :
    goodCmd id v := by
  unfold parse_set at h
  repeat' split at h
  all_goals (try (cases h))
  all_goals first
    | exact goodCmd_mkCmd
    | exact parseSetGeo_good _ _ _ h
    | exact parseSetCredentials_good _ _ _ h

/-- `parse_network` results have the good shape. -/
theorem parse_network_good (rest : List String) (id : String) (v : Json)
    (h : parse_network rest id = .ok v) : goodCmd id v := by
  unfold parse_network at h
  repeat' split at h
  all_goals (try (cases h))
  all_goals exact goodCmd_mkCmd

/-- `parseStorageOps` results have the good shape. -/
theorem parseStorageOps_good (rest : List String) (id ty : String) (v : Json)
    (h : parseStorageOps rest id ty = .ok v) : goodCmd id v := by
  unfold parseStorageOps at h
  dsimp only at h
  repeat' split at h
  all_goals (try (cases h))
  all_goals first
    | exact goodCmd_mkCmd
    | exact goodCmd_jsonSet goodCmd_mkCmd (by decide) (by decide)

/-- `parse_storage` results have the good shape. -/
theorem parse_storage_good (rest : List String) (id : String) (v : Json)
    (h : parse_storage rest id = .ok v) : goodCmd id v := by
  unfold parse_storage at h
  repeat' split at h
  all_goals (try (cases h))
  all_goals exact parseStorageOps_good _ _ _ _ h

/-- Every successful `parse_command` result is an object carrying the
generated id and a string action. -/
theorem parse_command_good (fromStr : String → Option Json) (micros : Nat)
    (args : List String) (flags : Flags) (v : Json)
    (h : parse_command fromStr micros args flags = .ok v) :
    goodCmd (gen_id micros) v := by
  rcases args with _ | ⟨cmd, rest⟩
  · rw [parse_command.eq_def] at h
    cases h
  · rw [parse_command.eq_def] at h
    dsimp only at h
    repeat' split at h
    all_goals (try (cases h))
    all_goals first
      | exact goodCmd_mkCmd
      | exact goodCmd_jsonSet goodCmd_mkCmd (by decide) (by decide)
      | exact goodCmd_snapshotLoop_all goodCmd_mkCmd
      | exact goodCmd_startConfig _ _ goodCmd_mkCmd
      | exact parse_get_good _ _ _ h
      | exact parse_is_good _ _ _ h
      | exact parse_find_good _ _ _ h
      | exact parse_mouse_good _ _ _ h
      | exact parse_set_good _ _ _ _ h
      | exact parse_network_good _ _ _ h
      | exact parse_storage_good _ _ _ h
      | exact recordCmd_good _ _ _ _ _ _ h

/-- C5 (amended): every successful `parse_command` result is a JSON object
with a string field `id` and a string field `action`, where the id is the
letter `r` followed by the decimal representation of the invocation time's
microseconds-since-epoch reduced modulo 1,000,000 — a sub-second component
of at most six digits.  (The object is not always flat: see the
counterexample.) -/
theorem C5_command_shape :
    ∀ (fromStr : String → Option Json) (micros : Nat) (args : List String)
      (flags : Flags) (v : Json),
      parse_command fromStr micros args flags = .ok v →
      (∃ fields, v = Json.obj fields) ∧
      getField v "id" = some (Json.str ("r" ++ Nat.repr (micros % 1000000))) ∧
      (∃ a, getField v "action" = some (Json.str a)) ∧
      (Nat.repr (micros % 1000000)).length ≤ 6 := by
  intro fromStr micros args flags v h
  obtain ⟨hobj, hid, hact⟩ := parse_command_good fromStr micros args flags v h
  have hm : micros % 1000000 < 1000000 := Nat.mod_lt _ (by norm_num)
  refine ⟨hobj, ?_, hact, ?_⟩
  · simpa [gen_id] using hid
  · exact Nat.repr_length _ 6 (by norm_num) (by simpa using hm)

/-- C5 witness: the command built for `["back"]` at clock 5 carries id
`r5` and action `back`. -/
theorem C5_command_shape_witness :
    parse_command noJson 5 ["back"] flags0 = .ok backCmd ∧
    (∃ fields, backCmd = Json.obj fields) ∧
    getField backCmd "id" = some (Json.str ("r" ++ Nat.repr (5 % 1000000))) ∧
    (∃ a, getField backCmd "action" = some (Json.str a)) ∧
    (Nat.repr (5 % 1000000)).length ≤ 6 := by
  have h : parse_command noJson 5 ["back"] flags0 = .ok backCmd := rfl
  have h2 := C5_command_shape noJson 5 ["back"] flags0 backCmd h
  exact ⟨h, h2.1, h2.2.1, h2.2.2.1, h2.2.2.2⟩

/-- C5 counterexample: `upload` parses successfully to an object whose
`files` field is an array — the resulting Command is not a flat key/value
object, contrary to the claim. -/
theorem C5_counterexample :
    parse_command noJson 0 ["upload", "#f", "a"] flags0 = .ok uploadCmd ∧
    isFlat uploadCmd = false := by
  exact ⟨rfl, rfl⟩

/-- C1 counterexample: in JSON output mode the warning block emits nothing,
even though the daemon was already running and a non-default
startup-configuration field (`--executable-path`) was supplied — the claim
demands at least one warning per such field in every invocation. -/
theorem C1_counterexample :
    fJsonMode.json = true ∧ fJsonMode.executable_path.isSome = true ∧
    config_warnings true fJsonMode = [] := by
  refine ⟨rfl, rfl, by decide⟩

end AgentBrowser
